import Mathlib

/-!
Verification of the BigClaw dashboard client script (`docs/js/dashboard.js`).

The script is a collection of fetch-render cycles over a DOM with four
containers, a pair of pure classifiers, a date formatter with an RSS-style
fallback, and a market-hours gate that decides once, at script load, whether
a recurring refresh timer is started.

Shallow embedding conventions:
- A fetch that rejects, or a response whose JSON parse fails, is `none`;
  a successful parse is `some payload`.  A payload field that may be absent
  (`data.tickers`, `data.articles`, `portfolio.holdings`, `data.lastUpdate`)
  is an `Option`.
- An error thrown during rendering is modelled with `Except Unit`; the
  `.catch` handler of each cycle is the `Except` case split that replaces
  the container content with the section fallback.
- JS numbers that are only compared and printed are modelled as `ℚ`
  (`totalReturn`, `bullishPercent`); `getDay`/`getHours` results as `Nat`.
- Strings are Lean `String`s, except in the date formatter where we work on
  `List Char` so that the split/join/trim structure is fully transparent.
- Indentation whitespace inside the HTML template literals is abbreviated;
  the tags, attribute values and literal words are kept verbatim.
-/

namespace Dashboard

/-! ### Refresh scheduler gate (`shouldAutoRefresh`, lines 184-200) -/

/-- `shouldAutoRefresh` (lines 184-191): weekday ordinals follow JS
`Date.getDay` (0 = Sunday … 6 = Saturday), hours follow `Date.getHours`
(0-23).  The gate is `day >= 1 && day <= 5 && hour >= 9 && hour < 17`. -/
def shouldAutoRefresh (day hour : Nat) : Bool :=
  decide (day ≥ 1) && decide (day ≤ 5) && decide (hour ≥ 9) && decide (hour < 17)

/-- The only scheduler state the script keeps: whether the top-level
`if (shouldAutoRefresh()) setInterval(...)` (lines 193-200) started the
recurring timer. -/
structure SchedulerState where
  armed : Bool
deriving DecidableEq, Repr

/-- Script load (lines 193-200): the gate is evaluated exactly once, with the
wall clock at load time, and its value decides whether the timer starts. -/
def scriptLoad (day hour : Nat) : SchedulerState :=
  { armed := shouldAutoRefresh day hour }

/-- Wall-clock time advancing after load.  Nothing in the script re-reads the
clock for the gate: the interval callback (lines 194-199) only invokes the
four loaders, and no other code path touches the timer, so the state is
unchanged whatever the new day and hour are. -/
def advanceTo (s : SchedulerState) (_day _hour : Nat) : SchedulerState := s

/-- The scheduler state at the end of a page lifetime that loads at
`(loadDay, loadHour)` and then sees the wall clock pass through `later`. -/
def lifetime (loadDay loadHour : Nat) (later : List (Nat × Nat)) : SchedulerState :=
  later.foldl (fun s dh => advanceTo s dh.1 dh.2) (scriptLoad loadDay loadHour)

/-! ### Sentiment classifier (`loadSentimentData`, lines 88-98) -/

/-- Lines 89-98: `sentimentClass`/`label` start as `neutral`/`Neutral` and are
overwritten by the `bullishPercent >= 60` and `else if bullishPercent <= 40`
branches; written as the equivalent if/else-if/else chain.  Returns
(CSS class, label). -/
def classifySentiment (bullishPercent : ℚ) : String × String :=
  if bullishPercent ≥ 60 then ("bullish", "Bullish")
  else if bullishPercent ≤ 40 then ("bearish", "Bearish")
  else ("neutral", "Neutral")

/-! ### Change classifier (`loadPortfolioData`, lines 35-36) -/

/-- Lines 35-36: `changeClass = totalReturn >= 0 ? 'positive' : 'negative'`
and `changeSign = totalReturn >= 0 ? '+' : ''`.  Returns (class, sign). -/
def classifyChange (totalReturn : ℚ) : String × String :=
  ( if totalReturn ≥ 0 then "positive" else "negative"
  , if totalReturn ≥ 0 then "+" else "" )

/-! ### Generic fetch-render cycle -/

/-- The `forEach` body of a cycle: render each entry in array order, appending
its fragment to the container (`container.innerHTML += ...`).  If rendering an
entry throws, the loop aborts and the exception escapes carrying the partial
content the container held at that moment (so we can speak about what the
`.catch` handler overwrites). -/
def renderAll {α : Type} (renderEntry : α → Except Unit String) :
    List α → String → Except String String
  | [], acc => Except.ok acc
  | x :: xs, acc =>
    match renderEntry x with
    | Except.ok s => renderAll renderEntry xs (acc ++ s)
    | Except.error _ => Except.error acc

/-- One fetch-render cycle in the shape shared by `loadPortfolioData`
(lines 26-77) and `loadSentimentData` (lines 80-113): fetch and parse
(`none` = network rejection or JSON parse error), clear the container
(`container.innerHTML = ''`), iterate the payload collection (`some none` =
the collection field is absent, so `.forEach` throws), and on any failure the
`.catch` handler replaces the container's entire content with the section
fallback.  Returns the container's final content. -/
def sectionCycle {α : Type} (fetched : Option (Option (List α)))
    (renderEntry : α → Except Unit String) (fallback : String) : String :=
  match fetched with
  | none => fallback
  | some none => fallback
  | some (some entries) =>
    match renderAll renderEntry entries "" with
    | Except.ok content => content
    | Except.error _ => fallback

/-! ### Sentiment section (`loadSentimentData`, lines 80-113) -/

/-- One sentiment card (lines 100-107); template-literal indentation
abbreviated, tags and literal text verbatim. -/
def renderSentimentEntry (ticker : String) (bullishPercent : ℚ) : String :=
  "<div class=\"sentiment-card\">\n<div class=\"ticker\">" ++ ticker
    ++ "</div>\n<div class=\"score " ++ (classifySentiment bullishPercent).1
    ++ "\">" ++ toString bullishPercent ++ "%</div>\n<div class=\"label\">"
    ++ (classifySentiment bullishPercent).2
    ++ "</div>\n<div class=\"source\">via X/Twitter</div>\n</div>\n"

/-- Fallback written by the `.catch` of `loadSentimentData` (line 111). -/
def sentimentFallback : String :=
  "<p class=\"loading\">Sentiment data not yet available.</p>"

/-- Fallback written by the `.catch` of `loadPortfolioData` (line 75). -/
def portfolioFallback : String :=
  "<p class=\"loading\">Portfolio data not yet available. Check back after the morning report.</p>"

/-- Fallback written by the `.catch` of `loadNewsData` (line 157). -/
def newsFallback : String :=
  "<p class=\"loading\">News feed not yet available.</p>"

/-- Message rendered by `loadNewsData` when the fetch succeeds but
`data.articles` is absent or empty (line 140). -/
def noNewsMessage : String :=
  "<p class=\"loading\">No news available yet.</p>"

/-! ### DOM model -/

/-- The four containers the loaders write to, looked up by element id at the
top of each loader:`portfolio-grid`, `sentiment-data`, `news-articles` and
`lastUpdate`.  (The performance-chart container is untouched by the claims.) -/
structure Dom where
  portfolioGrid : String
  sentimentData : String
  newsArticles : String
  lastUpdate : String
deriving DecidableEq, Repr

/-- `loadSentimentData` (lines 80-113) as a DOM transformer: it writes the
outcome of its cycle into the `sentiment-data` container and touches nothing
else.  The sentiment payload is `{ tickers?: {ticker, bullishPercent}[] }`. -/
def loadSentimentData (fetched : Option (Option (List (String × ℚ)))) (dom : Dom) : Dom :=
  { dom with
    sentimentData :=
      sectionCycle fetched
        (fun item => Except.ok (renderSentimentEntry item.1 item.2)) sentimentFallback }

/-! ### Portfolio section (`loadPortfolioData`, lines 26-77) -/

/-- One holding of a portfolio: `{ticker: string, shares: number}`. -/
structure Holding where
  ticker : String
  shares : Nat
deriving DecidableEq, Repr

/-- One `<li>` of the holdings list (lines 50-53); template-literal
indentation abbreviated, tags and literal text verbatim. -/
def holdingLi (h : Holding) : String :=
  "<li>\n<span class=\"ticker\">" ++ h.ticker ++ "</span>\n<span class=\"shares\">"
    ++ toString h.shares ++ " shares" ++ "</span>\n</li>\n"

/-- The no-holdings marker (line 58). -/
def noHoldingsMarker : String := "<p class=\"no-holdings\">No current holdings</p>"

/-- `holdingsHtml` (lines 45-59): a `<ul>` with one `<li>` per holding, in
array order, when `portfolio.holdings` is present and non-empty
(`portfolio.holdings && portfolio.holdings.length > 0`); otherwise the
literal no-holdings paragraph. -/
def holdingsHtml (holdings : Option (List Holding)) : String :=
  match holdings with
  | some hs =>
    if hs.length > 0 then
      "<ul class=\"holdings-list\">\n" ++ String.join (hs.map holdingLi) ++ "</ul>\n"
    else noHoldingsMarker
  | none => noHoldingsMarker

/-- Substring test (`s` contains `pat` as a contiguous substring), used to
state that the no-holdings marker carries no holdings-list markup. -/
def isPrefixChars : List Char → List Char → Bool
  | [], _ => true
  | _ :: _, [] => false
  | p :: ps, c :: cs => p == c && isPrefixChars ps cs

/-- Whether `pat` occurs contiguously in `s`. -/
def containsSub (pat : List Char) : List Char → Bool
  | [] => isPrefixChars pat []
  | c :: cs => isPrefixChars pat (c :: cs) || containsSub pat cs

/-! ### News section (`loadNewsData`, lines 131-159) -/

/-- `loadNewsData`'s container content. The payload is
`{ articles?: NewsArticle[] }`; `none` = fetch rejection or parse error.  On
success the container is cleared, then: absent or empty `data.articles`
(line 139: `!data.articles || data.articles.length === 0`) renders the
no-news message; otherwise the articles are rendered in order, a throw while
rendering an entry propagating to the `.catch` fallback (line 157).  The
per-article template (lines 147-153) is abstracted by `renderEntry`. -/
def loadNewsContent {α : Type} (fetched : Option (Option (List α)))
    (renderEntry : α → Except Unit String) : String :=
  match fetched with
  | none => newsFallback
  | some none => noNewsMessage
  | some (some articles) =>
    if articles.length = 0 then noNewsMessage
    else
      match renderAll renderEntry articles "" with
      | Except.ok content => content
      | Except.error _ => newsFallback

/-! ### Timestamp updater (`updateTimestamp`, lines 13-23) -/

/-- JS `a || b` restricted to an optional string field: the default is used
when the field is absent (`undefined`) or falsy — for a string, exactly when
it is empty. -/
def jsOrDefault (v : Option String) (dflt : String) : String :=
  match v with
  | some s => if s = "" then dflt else s
  | none => dflt

/-- `updateTimestamp` (lines 13-23): fetch `data/metadata.json`; on success
set the text to `data.lastUpdate || 'Unknown'` (line 18); on fetch/parse
failure the `.catch` sets `'Data not yet available'` (line 21).  The argument
is `none` for a rejected fetch, `some lastUpdate?` for a parsed payload. -/
def updateTimestamp (fetched : Option (Option String)) : String :=
  match fetched with
  | none => "Data not yet available"
  | some lastUpdate => jsOrDefault lastUpdate "Unknown"

/-- `loadPortfolioData` (lines 26-77) as a DOM transformer: it writes the
outcome of its cycle into the `portfolio-grid` container and touches nothing
else.  The per-portfolio card template (lines 61-71, using `classifyChange`
and `holdingsHtml`) is abstracted by `renderEntry`, which may throw on a
malformed entry. -/
def loadPortfolioData {α : Type} (fetched : Option (Option (List α)))
    (renderEntry : α → Except Unit String) (dom : Dom) : Dom :=
  { dom with portfolioGrid := sectionCycle fetched renderEntry portfolioFallback }

/-! ### Date formatter (`formatPublishedDate`, lines 162-173) -/

/-- JS `String.prototype.split(',')` on a character list: splits at every
comma, so `""` gives `[""]` and separators at the ends give empty segments,
exactly as in JS. -/
def splitComma : List Char → List (List Char)
  | [] => [[]]
  | c :: cs =>
    if c = ',' then [] :: splitComma cs
    else
      match splitComma cs with
      | [] => [[c]]
      | w :: ws => (c :: w) :: ws

/-- JS `Array.prototype.join(',')` on character-list segments. -/
def joinComma : List (List Char) → List Char
  | [] => []
  | [w] => w
  | w :: x :: ws => w ++ ',' :: joinComma (x :: ws)

/-- JS `String.prototype.trim`: drop whitespace from both ends. -/
def trimChars (cs : List Char) : List Char :=
  ((cs.dropWhile Char.isWhitespace).reverse.dropWhile Char.isWhitespace).reverse

/-- The RSS-style fallback of line 167:
`dateStr.split(',').slice(0, 2).join(',').trim()`. -/
def rssFallback (cs : List Char) : List Char :=
  trimChars (joinComma ((splitComma cs).take 2))

/-- `formatPublishedDate` (lines 162-173).  `parse` stands for
`new Date(dateStr)` followed by the `isNaN(date.getTime())` test (`none` =
invalid date), `fmt` for `date.toLocaleDateString('en-US', ...)`, which is
host behaviour and may throw; the surrounding `try`/`catch` returns the empty
string on any exception. -/
def formatPublishedDate {τ : Type} (parse : List Char → Option τ)
    (fmt : τ → Except Unit (List Char)) (dateStr : List Char) : List Char :=
  match
    (match parse dateStr with
     | some t => fmt t
     | none => Except.ok (rssFallback dateStr)) with
  | Except.ok r => r
  | Except.error _ => []

end Dashboard

/-! ### Theorems -/

namespace Dashboard

/-- C1: the refresh scheduler is armed iff, at script load, the day ordinal is
in 1..5 and the hour is in [9, 17); the gate is evaluated once at load, so a
page loaded outside the window stays unarmed for its whole lifetime, whatever
wall-clock times it later passes through — in particular a page loaded
Saturday 10:00 that survives to Monday 10:00 never arms. -/
theorem scheduler_gate_armed_iff (d h : Nat) (later : List (Nat × Nat)) :
    ((lifetime d h later).armed = true ↔ (1 ≤ d ∧ d ≤ 5 ∧ 9 ≤ h ∧ h < 17))
    ∧ (lifetime 6 10 [(1, 10)]).armed = false := by
  have hfold : ∀ (l : List (Nat × Nat)) (s : SchedulerState),
      l.foldl (fun s dh => advanceTo s dh.1 dh.2) s = s := by
    intro l
    induction l with
    | nil => intro s; rfl
    | cons x xs ih => intro s; exact ih s
  constructor
  · rw [lifetime, hfold]
    simp [scriptLoad, shouldAutoRefresh, and_assoc]
  · rw [lifetime, hfold]
    simp [scriptLoad, shouldAutoRefresh]

/-- C2: the sentiment classifier is a three-way partition: class `"bullish"`
iff p ≥ 60, `"bearish"` iff p ≤ 40, `"neutral"` iff 40 < p < 60; the boundary
values 60 and 40 are bullish resp. bearish, never neutral. -/
theorem sentiment_three_way_partition (p : ℚ) :
    ((classifySentiment p).1 = "bullish" ↔ 60 ≤ p)
    ∧ ((classifySentiment p).1 = "bearish" ↔ p ≤ 40)
    ∧ ((classifySentiment p).1 = "neutral" ↔ (40 < p ∧ p < 60))
    ∧ (classifySentiment 60).1 = "bullish"
    ∧ (classifySentiment 40).1 = "bearish" := by
  by_cases h60 : p ≥ 60
  · simp only [classifySentiment, if_pos h60]
    refine ⟨by simp [ge_iff_le.mp h60], by simp; linarith, by simp; intro h; linarith,
      by norm_num, by norm_num⟩
  · by_cases h40 : p ≤ 40
    · simp only [classifySentiment, if_neg h60, if_pos h40]
      refine ⟨by simp; linarith [not_le.mp (by simpa [ge_iff_le] using h60)],
        by simp [h40], by simp; intro h; linarith, by norm_num, by norm_num⟩
    · simp only [classifySentiment, if_neg h60, if_neg h40]
      have hlt60 : p < 60 := not_le.mp (by simpa [ge_iff_le] using h60)
      have hgt40 : 40 < p := not_le.mp h40
      refine ⟨by simp; linarith, by simp; linarith,
        by simp [hgt40, hlt60], by norm_num, by norm_num⟩

/-- C7: the change classifier yields class `"positive"` iff v ≥ 0 (else
`"negative"`) and sign `"+"` iff v ≥ 0 (else `""`); zero is positive with a
`"+"` sign. -/
theorem change_classifier_sign (v : ℚ) :
    ((classifyChange v).1 = "positive" ↔ 0 ≤ v)
    ∧ ((classifyChange v).1 = "negative" ↔ ¬ 0 ≤ v)
    ∧ ((classifyChange v).2 = "+" ↔ 0 ≤ v)
    ∧ ((classifyChange v).2 = "" ↔ ¬ 0 ≤ v)
    ∧ (classifyChange 0).1 = "positive" ∧ (classifyChange 0).2 = "+" := by
  unfold classifyChange
  by_cases h : (0 : ℚ) ≤ v <;> simp [ge_iff_le, h]

/-- C3: a failure at any stage of a fetch-render cycle — network rejection or
parse error (`none`), absent collection field (`some none`), or an entry
renderer throwing mid-iteration with any partial content `pc` already
appended — leaves the container holding exactly the section fallback; the
same holds for the news cycle and the timestamp updater on their failure
paths.  No partially-rendered final state survives. -/
theorem cycle_failure_exact_fallback {α : Type} (renderEntry : α → Except Unit String)
    (fallback : String) (entries : List α) (pc : String) :
    sectionCycle none renderEntry fallback = fallback
    ∧ sectionCycle (some none) renderEntry fallback = fallback
    ∧ (renderAll renderEntry entries "" = Except.error pc →
        sectionCycle (some (some entries)) renderEntry fallback = fallback)
    ∧ loadNewsContent none renderEntry = newsFallback
    ∧ (entries.length ≠ 0 → renderAll renderEntry entries "" = Except.error pc →
        loadNewsContent (some (some entries)) renderEntry = newsFallback)
    ∧ updateTimestamp none = "Data not yet available" := by
  refine ⟨rfl, rfl, ?_, rfl, ?_, rfl⟩
  · intro h
    simp [sectionCycle, h]
  · intro hne h
    simp [loadNewsContent, hne, h]

/-- Witness for C3: a one-entry list whose renderer throws ends with the
cycle's container holding exactly the fallback. -/
theorem cycle_failure_exact_fallback_witness :
    sectionCycle (some (some [0])) (fun _ : Nat => Except.error ()) "FB" = "FB"
    ∧ loadNewsContent (some (some [0])) (fun _ : Nat => Except.error ()) = newsFallback :=
  ⟨(cycle_failure_exact_fallback (fun _ : Nat => Except.error ()) "FB" [0] "").2.2.1 rfl,
   (cycle_failure_exact_fallback (fun _ : Nat => Except.error ()) "FB" [0] "").2.2.2.2.1
      (by decide) rfl⟩

/-- C4: when the sentiment fetch rejects, the sentiment container holds the
sentiment fallback and every other container is untouched; and whatever the
sentiment cycle did, the portfolio cycle run afterwards still produces its
own cycle's outcome in its own container. -/
theorem sentiment_failure_frame {α : Type} (dom : Dom)
    (pfetched : Option (Option (List α))) (prender : α → Except Unit String) :
    (loadSentimentData none dom).sentimentData = sentimentFallback
    ∧ (loadSentimentData none dom).portfolioGrid = dom.portfolioGrid
    ∧ (loadSentimentData none dom).newsArticles = dom.newsArticles
    ∧ (loadSentimentData none dom).lastUpdate = dom.lastUpdate
    ∧ ∀ sfetched : Option (Option (List (String × ℚ))),
        (loadPortfolioData pfetched prender (loadSentimentData sfetched dom)).portfolioGrid
          = sectionCycle pfetched prender portfolioFallback :=
  ⟨rfl, rfl, rfl, rfl, fun _ => rfl⟩

/-- C5: the timestamp updater keeps its two fallbacks apart: a successful
fetch with the `lastUpdate` field absent displays `"Unknown"`, never
`"Data not yet available"`; the latter appears exactly on the catch path. -/
theorem timestamp_fallbacks_distinct :
    updateTimestamp (some none) = "Unknown"
    ∧ updateTimestamp (some none) ≠ "Data not yet available"
    ∧ updateTimestamp none = "Data not yet available"
    ∧ "Unknown" ≠ "Data not yet available" := by
  refine ⟨rfl, by decide, rfl, by decide⟩

/-- C10: the in-band default is selected by JS truthiness, not field
presence: a present-but-empty `lastUpdate` displays `"Unknown"` exactly like
an absent one, while any non-empty value is displayed as-is. -/
theorem timestamp_truthiness_default :
    updateTimestamp (some (some "")) = "Unknown"
    ∧ updateTimestamp (some none) = "Unknown"
    ∧ ∀ s : String, s ≠ "" → updateTimestamp (some (some s)) = s := by
  refine ⟨rfl, rfl, ?_⟩
  intro s hs
  simp [updateTimestamp, jsOrDefault, hs]

/-- Witness for C10: a non-empty timestamp string is displayed unchanged. -/
theorem timestamp_truthiness_default_witness :
    updateTimestamp (some (some "2025-06-02")) = "2025-06-02" :=
  timestamp_truthiness_default.2.2 "2025-06-02" (by decide)

/-- C9: a successful news fetch with the articles collection absent or empty
displays the no-news message, which is distinct from the fetch-failure
fallback shown when the fetch rejects. -/
theorem news_empty_distinct_from_failure {α : Type} (renderEntry : α → Except Unit String) :
    loadNewsContent (some none) renderEntry = noNewsMessage
    ∧ loadNewsContent (some (some [])) renderEntry = noNewsMessage
    ∧ loadNewsContent none renderEntry = newsFallback
    ∧ noNewsMessage ≠ newsFallback := by
  refine ⟨rfl, rfl, rfl, by decide⟩

/-- C8: an absent or empty holdings array renders exactly the literal
no-holdings marker, which contains no holdings-list markup; a non-empty one
renders the holdings list with one `<li>` per holding, in array order, each
carrying the holding's ticker and share count. -/
theorem holdings_rendering (hs : List Holding) :
    holdingsHtml none = noHoldingsMarker
    ∧ holdingsHtml (some []) = noHoldingsMarker
    ∧ containsSub ("holdings-list".data) (noHoldingsMarker.data) = false
    ∧ (hs ≠ [] →
        holdingsHtml (some hs)
          = "<ul class=\"holdings-list\">\n" ++ String.join (hs.map holdingLi) ++ "</ul>\n")
    ∧ ∀ h : Holding, ∃ a b c : String,
        holdingLi h = a ++ h.ticker ++ b ++ toString h.shares ++ " shares" ++ c := by
  refine ⟨rfl, rfl, by decide, ?_, ?_⟩
  · intro hne
    simp [holdingsHtml, List.length_pos, hne]
  · intro h
    exact ⟨"<li>\n<span class=\"ticker\">", "</span>\n<span class=\"shares\">",
      "</span>\n</li>\n", rfl⟩

/-- Witness for C8: a single-holding portfolio renders the holdings list. -/
theorem holdings_rendering_witness :
    holdingsHtml (some [{ ticker := "AAPL", shares := 10 }])
      = "<ul class=\"holdings-list\">\n"
          ++ String.join ([{ ticker := "AAPL", shares := 10 : Holding }].map holdingLi)
          ++ "</ul>\n" :=
  (holdings_rendering [{ ticker := "AAPL", shares := 10 }]).2.2.2.1 (by decide)

/-- `splitComma` never returns the empty list (JS `split` always yields at
least one segment). -/
theorem splitComma_ne_nil : ∀ cs : List Char, splitComma cs ≠ []
  | [] => by simp [splitComma]
  | c :: cs => by
    simp only [splitComma]
    split
    · simp
    · split <;> simp

/-- Joining the comma-split segments with commas recovers the original
string. -/
theorem joinComma_splitComma : ∀ cs : List Char, joinComma (splitComma cs) = cs
  | [] => rfl
  | c :: cs => by
    have ih := joinComma_splitComma cs
    rcases hsp : splitComma cs with _ | ⟨w, ws⟩
    · exact absurd hsp (splitComma_ne_nil cs)
    · rw [hsp] at ih
      by_cases hc : c = ','
      · simp only [splitComma, if_pos hc, hsp, joinComma, List.nil_append, hc]
        rw [ih]
      · simp only [splitComma, if_neg hc, hsp]
        cases ws with
        | nil => simpa [joinComma] using congrArg (c :: ·) ih
        | cons x ws =>
          simp only [joinComma, List.cons_append] at ih ⊢
          rw [ih]

/-- A string with a single comma segment splits into exactly itself. -/
theorem splitComma_singleton {cs x : List Char} (h : splitComma cs = [x]) : x = cs := by
  have := joinComma_splitComma cs
  rw [h] at this
  simpa [joinComma] using this

/-- C6: when the standard date parse yields an invalid date, the formatter
returns the input split on commas, truncated to the first two segments,
rejoined with a comma and trimmed; for an unparseable input with fewer than
two comma segments this is the trimmed original, returned without throwing;
and an exception thrown while formatting a valid date yields the empty
string instead of propagating. -/
theorem format_date_invalid_parse {τ : Type} (parse : List Char → Option τ)
    (fmt : τ → Except Unit (List Char)) (s : List Char) :
    (parse s = none →
      formatPublishedDate parse fmt s = trimChars (joinComma ((splitComma s).take 2)))
    ∧ (parse s = none → (splitComma s).length < 2 →
      formatPublishedDate parse fmt s = trimChars s)
    ∧ (∀ t : τ, parse s = some t → fmt t = Except.error () →
      formatPublishedDate parse fmt s = []) := by
  refine ⟨?_, ?_, ?_⟩
  · intro hp
    simp [formatPublishedDate, hp, rssFallback]
  · intro hp hlen
    have hone : (splitComma s).length = 1 := by
      have hpos : 0 < (splitComma s).length := List.length_pos.mpr (splitComma_ne_nil s)
      omega
    obtain ⟨x, hx⟩ := List.length_eq_one.mp hone
    have hxs : x = s := splitComma_singleton hx
    simp [formatPublishedDate, hp, rssFallback, hx, joinComma, hxs]
  · intro t hp hf
    simp [formatPublishedDate, hp, hf]

/-- Witness for C6: the RSS-style example keeps its first two comma segments,
an unparseable single-segment string comes back trimmed, and a throwing
formatter yields the empty string. -/
theorem format_date_invalid_parse_witness :
    formatPublishedDate (fun _ => (none : Option Nat)) (fun _ => Except.error ())
        ("Mon, 02 Jun 2025, 10:00:00 GMT".data) = ("Mon, 02 Jun 2025".data)
    ∧ formatPublishedDate (fun _ => (none : Option Nat)) (fun _ => Except.error ())
        (" 02 Jun 2025 ".data) = ("02 Jun 2025".data)
    ∧ formatPublishedDate (fun _ => (some 0 : Option Nat)) (fun _ => Except.error ())
        ("2025-06-02".data) = [] :=
  ⟨((format_date_invalid_parse _ _ _).1 rfl).trans (by decide),
   ((format_date_invalid_parse _ _ _).2.1 rfl (by decide)).trans (by decide),
   (format_date_invalid_parse _ _ _).2.2 0 rfl rfl⟩

end Dashboard
